import Mathlib

/-!
Verification of the NextGen API client library's authenticated-request
pipeline: the Token Manager (`nextgen_api/auth/oauth_client.py`) and the
Request Dispatcher (`nextgen_api/services/base_service.py`).

Time is modelled as an integer timestamp (`Int`); `datetime.now()` becomes an
explicit `now` parameter.  Python `Optional` values become `Option`; Python
truthiness of an optional string (`None` or `""` are falsy) is `truthyOpt`.
HTTP traffic is modelled by explicit response values fed to the functions.
-/

namespace NextGen

/-- Python truthiness of an `Optional[str]`: `None` and `""` are falsy. -/
def truthyOpt : Option String → Bool
  | none => false
  | some s => s ≠ ""

/-- The fields of `NextGenConfig` that the token manager reads.
`username`/`password` model `getattr(config, 'username', None)`: the dataclass
declares no such fields, so they are absent (`none`) unless set dynamically. -/
structure NGConfig where
  client_id : String
  client_secret : String
  site_id : String
  grant_type : String
  username : Option String
  password : Option String
  x_ng_session_id : Option String
  base_url : String
  deriving Repr, DecidableEq

/-- Token State of `NextGenOAuthClient`: `_access_token` and
`_token_expiration` (a `datetime`, modelled as an integer timestamp). -/
structure TokenState where
  access_token : Option String
  token_expiration : Option Int
  deriving Repr, DecidableEq

/-- State after `__init__`: both fields `None`. -/
def initState : TokenState := ⟨none, none⟩

/-- Model of `revoke_token`: clears both fields. -/
def revoke_token : TokenState := ⟨none, none⟩

/-- Model of `_is_token_expired`: no expiration means expired; otherwise
`self._token_expiration <= datetime.now()`. -/
def is_token_expired (st : TokenState) (now : Int) : Bool :=
  match st.token_expiration with
  | none => true
  | some e => e ≤ now

/-- Model of `_should_refresh_token`: refresh when the token or expiration is
falsy, or the token is expired. -/
def should_refresh_token (st : TokenState) (now : Int) : Bool :=
  if !truthyOpt st.access_token || st.token_expiration.isNone then true
  else is_token_expired st now

/-- Model of the `is_authenticated` property: `self._access_token is not None and not
self._is_token_expired()`.  Note `is not None`, not truthiness. -/
def is_authenticated (st : TokenState) (now : Int) : Bool :=
  st.access_token.isSome && !is_token_expired st now

/-- The JSON body of a token-endpoint response, restricted to the two fields
the code reads (`token_data.get('access_token')`,
`token_data.get('expires_in', 3600)`). -/
structure TokenBody where
  access_token : Option String
  expires_in : Option Int
  deriving Repr, DecidableEq

/-- Outcome of the POST to the token endpoint: a transport failure
(`requests.exceptions.RequestException`) or an HTTP response with a status
code and a body; `none` for the body means `response.json()` raises. -/
inductive TokenResponse where
  | transportFailure : TokenResponse
  | response (status : Nat) (body : Option TokenBody) : TokenResponse
  deriving Repr, DecidableEq

/-- The form parameters `_refresh_token` sends: always client_id,
client_secret, site_id, grant_type; username/password are added only when
grant_type is `password` and both are truthy. -/
def refresh_params (cfg : NGConfig) : List (String × String) :=
  let base := [("client_id", cfg.client_id), ("client_secret", cfg.client_secret),
               ("site_id", cfg.site_id), ("grant_type", cfg.grant_type)]
  if cfg.grant_type = "password" then
    if truthyOpt cfg.username && truthyOpt cfg.password then
      base ++ [("username", cfg.username.getD ""), ("password", cfg.password.getD "")]
    else base
  else base

/-- Model of `_refresh_token`.  Returns `(succeeded?, new token state)`; `false` means
`AuthenticationError` was raised.  Faithful to the source order: on a 200 JSON
body the code first assigns `self._access_token = token_data.get('access_token')`
and only then checks truthiness, so a body with a missing or empty
`access_token` overwrites the cached token before raising, while
`_token_expiration` keeps its prior value. -/
def refresh_token (st : TokenState) (now : Int) (resp : TokenResponse) :
    Bool × TokenState :=
  match resp with
  | .transportFailure => (false, st)
  | .response status body =>
    if status ≠ 200 then (false, st)
    else
      match body with
      | none => (false, st)
      | some b =>
        let st1 : TokenState := { st with access_token := b.access_token }
        if !truthyOpt b.access_token then (false, st1)
        else
          let e := b.expires_in.getD 3600
          (true, { access_token := b.access_token, token_expiration := some (now + e) })

/-- Model of `authenticate`: try `_refresh_token`, return `is_authenticated` on
success; catch `AuthenticationError` and return `False`.  Returns the boolean
result and the resulting state (it never lets the error escape). -/
def authenticate (st : TokenState) (now : Int) (resp : TokenResponse) :
    Bool × TokenState :=
  match refresh_token st now resp with
  | (true, st1) => (is_authenticated st1 now, st1)
  | (false, st1) => (false, st1)

/-- Result of one read of the `access_token` property: whether an
`AuthenticationError` escaped, the state afterwards, the returned value when
no error escaped, and how many POSTs to the token endpoint were made. -/
structure PropResult where
  raised : Bool
  st : TokenState
  val : Option String
  posts : Nat
  deriving Repr, DecidableEq

/-- The `access_token` property: refresh when `_should_refresh_token`, then
return `self._access_token`. -/
def access_token_read (st : TokenState) (now : Int) (resp : TokenResponse) :
    PropResult :=
  if should_refresh_token st now then
    match refresh_token st now resp with
    | (true, st1) => ⟨false, st1, st1.access_token, 1⟩
    | (false, st1) => ⟨true, st1, none, 1⟩
  else ⟨false, st, st.access_token, 0⟩

/-- Result of `get_auth_headers`: whether `AuthenticationError` was raised,
the headers returned otherwise, the state afterwards, and the number of POSTs
to the token endpoint. -/
structure HeadersResult where
  raised : Bool
  headers : List (String × String)
  st : TokenState
  posts : Nat
  deriving Repr, DecidableEq

/-- Python `f'Bearer {...}'` on an optional string (`None` prints `None`). -/
def pyShow : Option String → String
  | none => "None"
  | some s => s

/-- The `x-ng-sessionid` header appended by `get_auth_headers` when
`self.config.x_ng_session_id` is truthy. -/
def sessionHeaders (cfg : NGConfig) : List (String × String) :=
  match cfg.x_ng_session_id with
  | some s => if s ≠ "" then [("x-ng-sessionid", s)] else []
  | none => []

/-- Model of `get_auth_headers`.  The source reads the `access_token` property twice:
once in `if not self.access_token:` and once in the f-string building the
`Authorization` header; each read may trigger its own refresh, consuming
`r1` then `r2`. -/
def get_auth_headers (cfg : NGConfig) (st : TokenState) (now : Int)
    (r1 r2 : TokenResponse) : HeadersResult :=
  let p1 := access_token_read st now r1
  if p1.raised then ⟨true, [], p1.st, p1.posts⟩
  else if !truthyOpt p1.val then ⟨true, [], p1.st, p1.posts⟩
  else
    let p2 := access_token_read p1.st now r2
    if p2.raised then ⟨true, [], p2.st, p1.posts + p2.posts⟩
    else
      let hs := [("Authorization", "Bearer " ++ pyShow p2.val)] ++ sessionHeaders cfg
      ⟨false, hs, p2.st, p1.posts + p2.posts⟩

/-! ### Request Dispatcher (`BaseService`) -/

/-- An HTTP response as seen by `_handle_response`.  `jsonOk` records whether
`response.json()` succeeds; `message` is the value of the `message` key when
the parsed JSON object has one; `text` is the raw body; `contentTypeJson`
records whether the `content-type` header contains `application/json` (the
source never consults it — the field exists so the spec's table can be
stated). -/
structure HttpResponse where
  status : Nat
  jsonOk : Bool
  message : Option String
  text : String
  contentTypeJson : Bool
  deriving Repr, DecidableEq

/-- The exception classes the dispatcher can raise. -/
inductive ErrKind where
  | clientErr      -- ClientError
  | rateLimitErr   -- RateLimitError
  | serverErr      -- ServerError
  | apiErr         -- NextGenAPIError (the generic base class)
  | networkErr     -- NetworkError
  | authErr        -- AuthenticationError (propagated from the token manager)
  deriving Repr, DecidableEq

/-- Model of `error_data.get('message', default)` where `error_data` is the parsed
JSON when `response.json()` succeeds and `{'raw_content': text}` otherwise. -/
def errMessage (r : HttpResponse) (dflt : String) : String :=
  if r.jsonOk then
    match r.message with
    | some m => m
    | none => dflt
  else dflt

/-- Model of `_handle_response`.  Returns the outcome (`ok` = the parsed JSON body of
`r` is returned; `error` = the raised exception kind and message) paired with
the token state afterwards (only the 401 branch mutates it, via
`self.oauth_client.revoke_token()`). -/
def handle_response (st : TokenState) (r : HttpResponse) :
    Except (ErrKind × String) HttpResponse × TokenState :=
  if 200 ≤ r.status ∧ r.status < 300 then
    if r.jsonOk then (.ok r, st)
    else (.error (.apiErr, "Invalid JSON response"), st)
  else if r.status = 401 then
    (.error (.clientErr, "Authentication failed - token may be invalid"), revoke_token)
  else if r.status = 403 then
    (.error (.clientErr, "Access forbidden - insufficient permissions"), st)
  else if r.status = 404 then
    (.error (.clientErr, "Resource not found"), st)
  else if r.status = 429 then
    (.error (.rateLimitErr, "Rate limit exceeded"), st)
  else if 400 ≤ r.status ∧ r.status < 500 then
    (.error (.clientErr, errMessage r ("Client error: " ++ toString r.status)), st)
  else if 500 ≤ r.status ∧ r.status < 600 then
    (.error (.serverErr, errMessage r ("Server error: " ++ toString r.status)), st)
  else
    (.error (.apiErr, "Unexpected response status: " ++ toString r.status), st)

/-- What `self._session.request(...)` does: time out, fail to connect, fail
otherwise, or deliver an HTTP response. -/
inductive TransportOutcome where
  | timeout
  | connectionFailure
  | requestFailure
  | gotResponse (r : HttpResponse)
  deriving Repr, DecidableEq

/-- Result of `_make_request`: the outcome, the token state afterwards, the
number of POSTs made to the token endpoint, and the number of times the data
request itself was issued. -/
structure RequestResult where
  outcome : Except (ErrKind × String) HttpResponse
  st : TokenState
  posts : Nat
  dataRequests : Nat
  deriving Repr

/-- Model of `_make_request`: obtain auth headers (outside the `try`, so an
`AuthenticationError` propagates as-is), issue the HTTP call exactly once,
map transport failures to `NetworkError`, and classify the response with
`_handle_response`.  There is no retry loop anywhere. -/
def make_request (cfg : NGConfig) (st : TokenState) (now : Int)
    (r1 r2 : TokenResponse) (t : TransportOutcome) : RequestResult :=
  let g := get_auth_headers cfg st now r1 r2
  if g.raised then ⟨.error (.authErr, "Unable to obtain access token"), g.st, g.posts, 0⟩
  else
    match t with
    | .timeout => ⟨.error (.networkErr, "Request timeout"), g.st, g.posts, 1⟩
    | .connectionFailure => ⟨.error (.networkErr, "Connection error"), g.st, g.posts, 1⟩
    | .requestFailure => ⟨.error (.networkErr, "Request error"), g.st, g.posts, 1⟩
    | .gotResponse r =>
      let (out, st1) := handle_response g.st r
      ⟨out, st1, g.posts, 1⟩

/-! ### URL building (`BaseService._build_url`)

`_build_url` strips leading slashes from the endpooint and calls
`urllib.parse.urljoin(base_url + '/', endpoint)`.  The CPython `urljoin`
algorithm is modelled at the character-list level for the inputs this call
site produces: an absolute `scheme://netloc/path` base and a scheme-less,
netloc-less relative path with no query, fragment or params part.
Dot-segment (`.`/`..`) resolution is not modelled; theorems about the model
restrict to paths without dot segments. -/

/-- Python `str.split(sep)` for a one-character separator. -/
def splitChar (c : Char) : List Char → List (List Char)
  | [] => [[]]
  | a :: rest =>
    if a = c then [] :: splitChar c rest
    else
      match splitChar c rest with
      | [] => [[a]]
      | s :: ss => (a :: s) :: ss

/-- Python `sep.join(segments)` for a one-character separator. -/
def joinChar (c : Char) : List (List Char) → List Char
  | [] => []
  | [s] => s
  | s :: rest => s ++ c :: joinChar c rest

/-- CPython's in-place `segments[1:-1] = filter(None, segments[1:-1])` needs
the tail step: keep the final element unconditionally, drop empty elements
before it. -/
def keepLast : List (List Char) → List (List Char)
  | [] => []
  | [s] => [s]
  | s :: rest => if s = [] then keepLast rest else s :: keepLast rest

/-- CPython urljoin step `segments[1:-1] = filter(None, segments[1:-1])`: keep the first and last
elements, drop empty interior elements. -/
def keepEnds : List (List Char) → List (List Char)
  | [] => []
  | [s] => [s]
  | s :: rest => s :: keepLast rest

/-- Model of `urllib.parse.urljoin(base, rel)` on the domain this library's
call site produces AND on which the skipped branches of the CPython
algorithm are no-ops: the base is `https://netloc/path`, the relative part
parses with no scheme, netloc, query, fragment or params of its own, no
path segment equals `.` or `..` (so the dot-resolution loop is the
identity), and neither input contains characters `urlsplit` strips or
treats as delimiters.  Under those conditions — enforced in the C7 theorem
by `urlSegChar` and the explicit exclusion of `.`/`..` segments —
resolution reduces to what is written here, following the CPython source:
empty `rel` returns `base`; an absolute-path `rel` ignores the base path
and is not slash-filtered; otherwise the base path's last segment is
dropped when it is not a directory, the segment lists are concatenated,
interior empty segments are filtered out, and the path is re-joined (with
`'/'` when the join is empty). -/
def urljoin_model (base rel : List Char) : List Char :=
  if rel = [] then base
  else
    let pre := base.takeWhile (· ≠ ':')
    let rest := (base.dropWhile (· ≠ ':')).drop 3
    let netloc := rest.takeWhile (· ≠ '/')
    let bpath := rest.dropWhile (· ≠ '/')
    let segments :=
      if rel.head? = some '/' then splitChar '/' rel
      else
        let parts := splitChar '/' bpath
        let base_parts := if parts.getLast? = some [] then parts else parts.dropLast
        keepEnds (base_parts ++ splitChar '/' rel)
    let path := joinChar '/' segments
    let path := if path = [] then ['/'] else path
    pre ++ [':', '/', '/'] ++ netloc ++ path

/-- Model of `BaseService._build_url`: strip leading slashes from the endpoint, then
`urljoin(self.config.base_url + '/', endpoint)`. -/
def build_url (base_url endpoint : String) : String :=
  let ep := endpoint.toList.dropWhile (· = '/')
  String.mk (urljoin_model (base_url.toList ++ ['/']) ep)

/-- A run of `n` slashes. -/
def slashes (n : Nat) : List Char := List.replicate n '/'

/-- A base path `/s1/s2/...` from its segments (empty list gives the empty
path). -/
def basePath (segs : List (List Char)) : List Char :=
  (segs.map (fun s => '/' :: s)).flatten

/-- Characters admitted in the netloc and path segments of the URL domain
modelled by `urljoin_model`: printable ASCII, excluding the delimiters whose
`urllib.parse` handling the model does not reproduce — the path slash, the
colon (which could make a leading endpoint segment parse as a scheme), query
`?`, fragment `#`, IPv6 brackets (on which `urlsplit` raises), and params
`;`; control characters and the space are excluded because `urlsplit`
strips or removes them. -/
def urlSegChar (c : Char) : Bool :=
  32 < c.toNat && c.toNat < 127 &&
    c ≠ '/' && c ≠ ':' && c ≠ '?' && c ≠ '#' && c ≠ '[' && c ≠ ']' && c ≠ ';'

/-- The Token State pairing invariant, in the form the code actually
maintains: a truthy (present and non-empty) cached token implies a present
expiry timestamp. -/
def tokenInv (st : TokenState) : Prop :=
  truthyOpt st.access_token = true → st.token_expiration.isSome = true

/-- A token-endpoint response whose successful body would yield a positive
`expires_in` (absent means the default 3600). -/
def posExpiresIn : TokenResponse → Bool
  | .response _ (some b) => 0 < b.expires_in.getD 3600
  | _ => true

/-! ## Helper lemmas on the token manager -/

/-- A successful `_refresh_token` can only come from a 200 response whose
body carries a truthy `access_token`; it stores that token with expiry
`now + expires_in` (default 3600). -/
theorem refresh_ok (st : TokenState) (now : Int) (resp : TokenResponse)
    (h : (refresh_token st now resp).1 = true) :
    ∃ b, resp = .response 200 (some b) ∧ truthyOpt b.access_token = true ∧
      (refresh_token st now resp).2 =
        ⟨b.access_token, some (now + b.expires_in.getD 3600)⟩ := by
  cases resp with
  | transportFailure => simp [refresh_token] at h
  | response status body =>
    by_cases hs : status = 200
    · subst hs
      cases body with
      | none => simp [refresh_token] at h
      | some b =>
        refine ⟨b, rfl, ?_, ?_⟩ <;>
        · simp only [refresh_token, ne_eq, not_true_eq_false, if_false] at h ⊢
          cases ht : truthyOpt b.access_token <;> simp [ht] at h ⊢
    · simp [refresh_token, hs] at h

/-- When no refresh is needed, the cached token is truthy and unexpired. -/
theorem not_should_refresh (st : TokenState) (now : Int)
    (h : should_refresh_token st now = false) :
    ∃ tok e, st.access_token = some tok ∧ tok ≠ "" ∧
      st.token_expiration = some e ∧ now < e := by
  unfold should_refresh_token at h
  split at h
  · exact absurd h (by simp)
  · next hcond =>
    rw [Bool.or_eq_true, not_or] at hcond
    obtain ⟨h1, h2⟩ := hcond
    cases ha : st.access_token with
    | none => simp [ha, truthyOpt] at h1
    | some tok =>
      cases he : st.token_expiration with
      | none => simp [he] at h2
      | some e =>
        refine ⟨tok, e, rfl, ?_, rfl, ?_⟩
        · simp [ha, truthyOpt] at h1; exact h1
        · simp [is_token_expired, he] at h
          omega

/-- A truthy token with a strictly-future expiry needs no refresh. -/
theorem should_refresh_valid (tok : String) (e now : Int)
    (h1 : tok ≠ "") (h2 : now < e) :
    should_refresh_token ⟨some tok, some e⟩ now = false := by
  simp [should_refresh_token, truthyOpt, is_token_expired, h1]
  omega

/-! ## Claim theorems -/

/-- C5: `is_authenticated` is true iff a token is cached (not `None`) and its
expiry is strictly in the future; after a refresh at time `T` whose 200 body
carries a non-empty token and `expires_in = 3600`, it is true at query time
`q` exactly when `q < T + 3600`.  `is_authenticated` is a pure function of
the state and the clock — by construction it performs no refresh and
returns no new state. -/
theorem c5_is_authenticated (st : TokenState) (now T q : Int) (b : TokenBody)
    (tok : String) (htok : b.access_token = some tok) (hne : tok ≠ "")
    (hei : b.expires_in = some 3600) :
    (is_authenticated st now = true ↔
      st.access_token.isSome = true ∧
        ∃ e, st.token_expiration = some e ∧ now < e) ∧
    refresh_token st T (.response 200 (some b)) =
      (true, ⟨some tok, some (T + 3600)⟩) ∧
    (is_authenticated ⟨some tok, some (T + 3600)⟩ q = true ↔ q < T + 3600) := by
  refine ⟨?_, ?_, ?_⟩
  · cases ha : st.access_token <;> cases he : st.token_expiration <;>
      simp [is_authenticated, is_token_expired, ha, he]
  · simp [refresh_token, htok, hei, truthyOpt, hne]
  · simp [is_authenticated, is_token_expired]

/-- Witness for C5 at a concrete state and refresh body. -/
theorem c5_is_authenticated_witness :
    (is_authenticated ⟨none, none⟩ 0 = true ↔
      (none : Option String).isSome = true ∧
        ∃ e, (none : Option Int) = some e ∧ (0:Int) < e) ∧
    refresh_token ⟨none, none⟩ 7 (.response 200 (some ⟨some "abc", some 3600⟩)) =
      (true, ⟨some "abc", some (7 + 3600)⟩) ∧
    (is_authenticated ⟨some "abc", some (7 + 3600)⟩ 12 = true ↔ (12:Int) < 7 + 3600) :=
  c5_is_authenticated ⟨none, none⟩ 0 7 12 ⟨some "abc", some 3600⟩ "abc" rfl
    (by decide) rfl

/-- C10: `authenticate()` never lets `AuthenticationError` escape (it is a
total function into `Bool × TokenState`): it leaves the state exactly as the
underlying refresh left it, returns `False` whenever the refresh failed, and
returns the value of `is_authenticated` at that moment when it succeeded. -/
theorem c10_authenticate (st : TokenState) (now : Int) (resp : TokenResponse) :
    (authenticate st now resp).2 = (refresh_token st now resp).2 ∧
    (authenticate st now resp).1 =
      ((refresh_token st now resp).1 &&
        is_authenticated (refresh_token st now resp).2 now) := by
  unfold authenticate
  rcases h : refresh_token st now resp with ⟨b, st1⟩
  cases b <;> simp

/-- C3: a 401 response makes the dispatcher clear the Token Manager's cached
state (via `revoke_token`) and raise `ClientError` (the spec's
"AuthenticationError/ClientError"); afterwards `is_authenticated` is false at
every query time. -/
theorem c3_unauthorized_revokes (st : TokenState) (r : HttpResponse) (now : Int)
    (h : r.status = 401) :
    handle_response st r =
      (.error (.clientErr, "Authentication failed - token may be invalid"),
        revoke_token) ∧
    is_authenticated (handle_response st r).2 now = false := by
  have h2 : handle_response st r =
      (.error (.clientErr, "Authentication failed - token may be invalid"),
        revoke_token) := by
    unfold handle_response
    rw [h]
    norm_num
  exact ⟨h2, by rw [h2]; simp [revoke_token, is_authenticated]⟩

/-- Witness for C3 at a concrete 401 response. -/
theorem c3_unauthorized_revokes_witness :
    handle_response ⟨some "t", some 50⟩ ⟨401, true, none, "denied", false⟩ =
      (.error (.clientErr, "Authentication failed - token may be invalid"),
        revoke_token) ∧
    is_authenticated
      (handle_response ⟨some "t", some 50⟩ ⟨401, true, none, "denied", false⟩).2
      0 = false :=
  c3_unauthorized_revokes ⟨some "t", some 50⟩ ⟨401, true, none, "denied", false⟩ 0 rfl

/-- C1 counterexample: a 200 refresh response whose JSON body lacks
`access_token` raises `AuthenticationError` but does NOT leave the prior
Token State unchanged — the cached token is overwritten with `None` while
the old expiry survives. -/
theorem c1_counterexample :
    refresh_token ⟨some "old", some 100⟩ 50 (.response 200 (some ⟨none, none⟩)) =
      (false, ⟨none, some 100⟩) ∧
    (⟨none, some 100⟩ : TokenState) ≠ ⟨some "old", some 100⟩ :=
  ⟨rfl, by decide⟩

/-- C1 amended: every refresh failure raises `AuthenticationError`; a
non-200 status, an unparseable body, or a transport failure leaves the Token
State exactly unchanged, but a 200 JSON body without a truthy `access_token`
stores the body's `access_token` field (absent or empty) over the cached
token while keeping the prior expiry. -/
theorem c1_refresh_failure (st : TokenState) (now : Int) (resp : TokenResponse)
    (hfail : (refresh_token st now resp).1 = false) :
    ((resp = .transportFailure ∨
      (∃ s b, resp = .response s b ∧ s ≠ 200) ∨
      (∃ s, resp = .response s none)) →
        (refresh_token st now resp).2 = st) ∧
    (∀ b, resp = .response 200 (some b) →
      truthyOpt b.access_token = false ∧
      (refresh_token st now resp).2 = ⟨b.access_token, st.token_expiration⟩) := by
  constructor
  · rintro (rfl | ⟨s, b, rfl, hs⟩ | ⟨s, rfl⟩)
    · rfl
    · simp [refresh_token, hs]
    · by_cases hs : s = 200 <;> simp [refresh_token, hs]
  · rintro b rfl
    cases ht : truthyOpt b.access_token with
    | false => simp [refresh_token, ht]
    | true => simp [refresh_token, ht] at hfail

/-- Witness for the amended C1 on a concrete transport failure and a concrete
token-less 200 body. -/
theorem c1_refresh_failure_witness :
    (refresh_token ⟨some "old", some 100⟩ 50 .transportFailure).2 =
      ⟨some "old", some 100⟩ ∧
    truthyOpt (none : Option String) = false ∧
    (refresh_token ⟨some "old", some 100⟩ 50
        (.response 200 (some ⟨none, some 9⟩))).2 = ⟨none, some 100⟩ := by
  refine ⟨?_, ?_⟩
  · exact (c1_refresh_failure ⟨some "old", some 100⟩ 50 .transportFailure rfl).1
      (Or.inl rfl)
  · have h := (c1_refresh_failure ⟨some "old", some 100⟩ 50
      (.response 200 (some ⟨none, some 9⟩)) rfl).2 ⟨none, some 9⟩ rfl
    exact ⟨h.1, h.2⟩

/-- Lemma: `_refresh_token` preserves the pairing invariant in every case. -/
theorem tokenInv_refresh (st : TokenState) (now : Int) (resp : TokenResponse)
    (h : tokenInv st) : tokenInv (refresh_token st now resp).2 := by
  cases resp with
  | transportFailure => exact h
  | response status body =>
    by_cases hs : status = 200
    · subst hs
      cases body with
      | none => simpa [refresh_token] using h
      | some b =>
        cases ht : truthyOpt b.access_token <;>
          simp [refresh_token, ht, tokenInv]
    · simpa [refresh_token, hs] using h

/-- One read of the `access_token` property preserves the pairing
invariant. -/
theorem tokenInv_read (st : TokenState) (now : Int) (r : TokenResponse)
    (h : tokenInv st) : tokenInv (access_token_read st now r).st := by
  unfold access_token_read
  split
  · rcases hr : refresh_token st now r with ⟨b, st1⟩
    have := tokenInv_refresh st now r h
    rw [hr] at this
    cases b <;> simpa using this
  · exact h

/-- C8 counterexample: from the initial state, a failed refresh whose 200
body carries `access_token = ""` leaves the pair partially set: the token is
present (Python `is not None`) while the expiry is absent. -/
theorem c8_counterexample :
    refresh_token ⟨none, none⟩ 0 (.response 200 (some ⟨some "", none⟩)) =
      (false, ⟨some "", none⟩) ∧
    ((⟨some "", none⟩ : TokenState).access_token.isSome = true ∧
      (⟨some "", none⟩ : TokenState).token_expiration.isSome = false) :=
  ⟨rfl, rfl, rfl⟩

/-- C8 amended: the invariant that a truthy (present, non-empty) cached
token always has a present expiry holds after construction and is preserved
by every operation: refresh (successful or failed, any cause), revoke,
authenticate, and `get_auth_headers`; `is_authenticated` is read-only by
construction.  (The unqualified "present ⇒ expiry present" form fails only
for the empty-string token stored by the counterexample.) -/
theorem c8_invariant (cfg : NGConfig) (st : TokenState) (now : Int)
    (resp r1 r2 : TokenResponse) (hinv : tokenInv st) :
    tokenInv initState ∧ tokenInv revoke_token ∧
    tokenInv (refresh_token st now resp).2 ∧
    tokenInv (authenticate st now resp).2 ∧
    tokenInv (get_auth_headers cfg st now r1 r2).st := by
  refine ⟨by simp [tokenInv, initState, truthyOpt],
          by simp [tokenInv, revoke_token, truthyOpt],
          tokenInv_refresh st now resp hinv, ?_, ?_⟩
  · unfold authenticate
    rcases hr : refresh_token st now resp with ⟨b, st1⟩
    have := tokenInv_refresh st now resp hinv
    rw [hr] at this
    cases b <;> simpa using this
  · have h1 := tokenInv_read st now r1 hinv
    have h2 := tokenInv_read (access_token_read st now r1).st now r2 h1
    unfold get_auth_headers
    dsimp only
    split_ifs <;> first | exact h1 | exact h2

/-- Witness for C8 at a concrete valid state and concrete responses. -/
theorem c8_invariant_witness :
    tokenInv initState ∧ tokenInv revoke_token ∧
    tokenInv (refresh_token ⟨some "t", some 9⟩ 3 .transportFailure).2 ∧
    tokenInv (authenticate ⟨some "t", some 9⟩ 3 .transportFailure).2 ∧
    tokenInv (get_auth_headers
      ⟨"c", "s", "i", "client_credentials", none, none, none, "b"⟩
      ⟨some "t", some 9⟩ 3 .transportFailure .transportFailure).st :=
  c8_invariant ⟨"c", "s", "i", "client_credentials", none, none, none, "b"⟩
    ⟨some "t", some 9⟩ 3 .transportFailure .transportFailure .transportFailure
    (by simp [tokenInv])

/-- C6 counterexample: with `grant_type = "password"` but no username
configured (the config dataclass declares no such field, so `getattr`
yields `None`), the POST omits `username`/`password`, against the claim's
unconditional "plus username and password when grant_type is password". -/
theorem c6_counterexample :
    refresh_params ⟨"cid", "csec", "sid", "password", none, none, none, "b"⟩ =
      [("client_id", "cid"), ("client_secret", "csec"), ("site_id", "sid"),
       ("grant_type", "password")] ∧
    "username" ∉
      (refresh_params
        ⟨"cid", "csec", "sid", "password", none, none, none, "b"⟩).map
        Prod.fst := by
  refine ⟨by decide, by decide⟩

/-- C6 amended: a successful refresh (200 body with a truthy `access_token`)
sets the Token State to the body's token with expiry `now + expires_in`
(default 3600 when the field is absent), and the form POST carries exactly
client_id, client_secret, site_id and grant_type, plus username and password
exactly when grant_type is `password` and both are configured truthy. -/
theorem c6_refresh_success (cfg : NGConfig) (st : TokenState) (now : Int)
    (b : TokenBody) (tok : String) (htok : b.access_token = some tok)
    (hne : tok ≠ "") :
    refresh_token st now (.response 200 (some b)) =
      (true, ⟨some tok, some (now + b.expires_in.getD 3600)⟩) ∧
    refresh_params cfg =
      [("client_id", cfg.client_id), ("client_secret", cfg.client_secret),
       ("site_id", cfg.site_id), ("grant_type", cfg.grant_type)] ++
      (if cfg.grant_type = "password" ∧ truthyOpt cfg.username = true ∧
          truthyOpt cfg.password = true then
        [("username", cfg.username.getD ""), ("password", cfg.password.getD "")]
      else []) := by
  constructor
  · simp [refresh_token, htok, truthyOpt, hne]
  · by_cases hgt : cfg.grant_type = "password" <;>
      by_cases hu : truthyOpt cfg.username <;>
      by_cases hp : truthyOpt cfg.password <;>
      simp [refresh_params, hgt, hu, hp]

/-- Witness for the amended C6: a password-grant config with both
credentials configured, and a body with `expires_in` absent (default 3600
applies). -/
theorem c6_refresh_success_witness :
    refresh_token ⟨none, none⟩ 5 (.response 200 (some ⟨some "tk", none⟩)) =
      (true, ⟨some "tk", some (5 + (none : Option Int).getD 3600)⟩) ∧
    refresh_params ⟨"cid", "csec", "sid", "password", some "u", some "pw",
        none, "b"⟩ =
      [("client_id", "cid"), ("client_secret", "csec"), ("site_id", "sid"),
       ("grant_type", "password")] ++
      (if ("password" : String) = "password" ∧
          truthyOpt (some "u") = true ∧ truthyOpt (some "pw") = true then
        [("username", (some "u" : Option String).getD ""),
         ("password", (some "pw" : Option String).getD "")]
      else []) :=
  c6_refresh_success
    ⟨"cid", "csec", "sid", "password", some "u", some "pw", none, "b"⟩
    ⟨none, none⟩ 5 ⟨some "tk", none⟩ "tk" rfl (by decide)

/-- C2 counterexample: a 200 response whose body is not JSON (and whose
`content-type` is not `application/json`) does NOT return the raw text
`"hello"` as the table claims — `_handle_response` never consults the
content-type and raises the generic `NextGenAPIError` instead. -/
theorem c2_counterexample :
    handle_response ⟨some "t", some 5⟩
        ⟨200, false, none, "hello", false⟩ =
      (.error (.apiErr, "Invalid JSON response"), ⟨some "t", some 5⟩) := rfl

/-- C2 amended: classification matches the §4.2 table except the 2xx row:
a 2xx response returns the decoded JSON body when the body parses as JSON
and otherwise raises a generic `NextGenAPIError` — the `content-type`
header is never consulted and raw text is never returned.  All other rows
hold: 401 revokes the token and raises `ClientError`, 403/404 raise
`ClientError`, 429 raises `RateLimitError`, other 4xx raise `ClientError`
and 5xx `ServerError` with the server-supplied `message` when present
(else a generic one), any other status raises a generic API error, and a
transport/timeout failure of the data request raises `NetworkError`. -/
theorem c2_classification (st : TokenState) (r : HttpResponse)
    (cfg : NGConfig) (st0 : TokenState) (now : Int) (r1 r2 : TokenResponse)
    (hok : (get_auth_headers cfg st0 now r1 r2).raised = false) :
    (200 ≤ r.status ∧ r.status < 300 →
      handle_response st r =
        ((if r.jsonOk then .ok r else .error (.apiErr, "Invalid JSON response")),
          st)) ∧
    (r.status = 401 →
      handle_response st r =
        (.error (.clientErr, "Authentication failed - token may be invalid"),
          revoke_token)) ∧
    (r.status = 403 →
      handle_response st r =
        (.error (.clientErr, "Access forbidden - insufficient permissions"), st)) ∧
    (r.status = 404 →
      handle_response st r = (.error (.clientErr, "Resource not found"), st)) ∧
    (r.status = 429 →
      handle_response st r = (.error (.rateLimitErr, "Rate limit exceeded"), st)) ∧
    (400 ≤ r.status ∧ r.status < 500 →
      r.status ≠ 401 → r.status ≠ 403 → r.status ≠ 404 → r.status ≠ 429 →
      handle_response st r =
        (.error (.clientErr, errMessage r ("Client error: " ++ toString r.status)),
          st)) ∧
    (500 ≤ r.status ∧ r.status < 600 →
      handle_response st r =
        (.error (.serverErr, errMessage r ("Server error: " ++ toString r.status)),
          st)) ∧
    ((r.status < 200 ∨ (300 ≤ r.status ∧ r.status < 400) ∨ 600 ≤ r.status) →
      handle_response st r =
        (.error (.apiErr, "Unexpected response status: " ++ toString r.status),
          st)) ∧
    (make_request cfg st0 now r1 r2 .timeout).outcome =
      .error (.networkErr, "Request timeout") ∧
    (make_request cfg st0 now r1 r2 .connectionFailure).outcome =
      .error (.networkErr, "Connection error") ∧
    (make_request cfg st0 now r1 r2 .requestFailure).outcome =
      .error (.networkErr, "Request error") := by
  refine ⟨?_, ?_, ?_, ?_, ?_, ?_, ?_, ?_, ?_, ?_, ?_⟩
  · intro h
    unfold handle_response
    rw [if_pos h]
    split <;> simp
  · intro h
    unfold handle_response
    rw [if_neg (by omega), if_pos h]
  · intro h
    unfold handle_response
    rw [if_neg (by omega), if_neg (by omega), if_pos h]
  · intro h
    unfold handle_response
    rw [if_neg (by omega), if_neg (by omega), if_neg (by omega), if_pos h]
  · intro h
    unfold handle_response
    rw [if_neg (by omega), if_neg (by omega), if_neg (by omega),
      if_neg (by omega), if_pos h]
  · intro h h1 h3 h4 h9
    unfold handle_response
    rw [if_neg (by omega), if_neg h1, if_neg h3, if_neg h4, if_neg h9,
      if_pos h]
  · intro h
    unfold handle_response
    rw [if_neg (by omega), if_neg (by omega), if_neg (by omega),
      if_neg (by omega), if_neg (by omega), if_neg (by omega), if_pos h]
  · intro h
    unfold handle_response
    rw [if_neg (by omega), if_neg (by omega), if_neg (by omega),
      if_neg (by omega), if_neg (by omega), if_neg (by omega),
      if_neg (by omega)]
  · simp [make_request, hok]
  · simp [make_request, hok]
  · simp [make_request, hok]

/-- Witness for the amended C2: the eight tabulated inputs {200 w/ JSON,
200 w/ non-JSON, 401, 403, 404, 429, 418, 500} at a concrete state, plus the
transport case, each through the theorem. -/
theorem c2_classification_witness :
    handle_response ⟨some "t", some 5⟩ ⟨200, true, none, "{}", true⟩ =
      (.ok ⟨200, true, none, "{}", true⟩, ⟨some "t", some 5⟩) ∧
    handle_response ⟨some "t", some 5⟩ ⟨200, false, none, "hi", false⟩ =
      (.error (.apiErr, "Invalid JSON response"), ⟨some "t", some 5⟩) ∧
    handle_response ⟨some "t", some 5⟩ ⟨401, false, none, "", false⟩ =
      (.error (.clientErr, "Authentication failed - token may be invalid"),
        revoke_token) ∧
    handle_response ⟨some "t", some 5⟩ ⟨403, false, none, "", false⟩ =
      (.error (.clientErr, "Access forbidden - insufficient permissions"),
        ⟨some "t", some 5⟩) ∧
    handle_response ⟨some "t", some 5⟩ ⟨404, false, none, "", false⟩ =
      (.error (.clientErr, "Resource not found"), ⟨some "t", some 5⟩) ∧
    handle_response ⟨some "t", some 5⟩ ⟨429, false, none, "", false⟩ =
      (.error (.rateLimitErr, "Rate limit exceeded"), ⟨some "t", some 5⟩) ∧
    handle_response ⟨some "t", some 5⟩ ⟨418, true, some "teapot", "", false⟩ =
      (.error (.clientErr,
        errMessage ⟨418, true, some "teapot", "", false⟩
          ("Client error: " ++ toString 418)), ⟨some "t", some 5⟩) ∧
    handle_response ⟨some "t", some 5⟩ ⟨500, false, none, "", false⟩ =
      (.error (.serverErr,
        errMessage ⟨500, false, none, "", false⟩
          ("Server error: " ++ toString 500)), ⟨some "t", some 5⟩) ∧
    (make_request ⟨"c", "s", "i", "client_credentials", none, none, none, "b"⟩
      ⟨some "t", some 5⟩ 0 .transportFailure .transportFailure
      .timeout).outcome = .error (.networkErr, "Request timeout") := by
  have h := c2_classification ⟨some "t", some 5⟩ ⟨200, true, none, "{}", true⟩
    ⟨"c", "s", "i", "client_credentials", none, none, none, "b"⟩
    ⟨some "t", some 5⟩ 0 .transportFailure .transportFailure (by decide)
  refine ⟨by simpa using h.1 (by decide), ?_, ?_, ?_, ?_, ?_, ?_, ?_,
    h.2.2.2.2.2.2.2.2.1⟩
  · exact (c2_classification ⟨some "t", some 5⟩ ⟨200, false, none, "hi", false⟩
      ⟨"c", "s", "i", "client_credentials", none, none, none, "b"⟩
      ⟨some "t", some 5⟩ 0 .transportFailure .transportFailure (by decide)).1
      (by decide) |>.trans (by norm_num)
  · exact (c2_classification ⟨some "t", some 5⟩ ⟨401, false, none, "", false⟩
      ⟨"c", "s", "i", "client_credentials", none, none, none, "b"⟩
      ⟨some "t", some 5⟩ 0 .transportFailure .transportFailure (by decide)).2.1
      rfl
  · exact (c2_classification ⟨some "t", some 5⟩ ⟨403, false, none, "", false⟩
      ⟨"c", "s", "i", "client_credentials", none, none, none, "b"⟩
      ⟨some "t", some 5⟩ 0 .transportFailure .transportFailure
      (by decide)).2.2.1 rfl
  · exact (c2_classification ⟨some "t", some 5⟩ ⟨404, false, none, "", false⟩
      ⟨"c", "s", "i", "client_credentials", none, none, none, "b"⟩
      ⟨some "t", some 5⟩ 0 .transportFailure .transportFailure
      (by decide)).2.2.2.1 rfl
  · exact (c2_classification ⟨some "t", some 5⟩ ⟨429, false, none, "", false⟩
      ⟨"c", "s", "i", "client_credentials", none, none, none, "b"⟩
      ⟨some "t", some 5⟩ 0 .transportFailure .transportFailure
      (by decide)).2.2.2.2.1 rfl
  · exact (c2_classification ⟨some "t", some 5⟩
      ⟨418, true, some "teapot", "", false⟩
      ⟨"c", "s", "i", "client_credentials", none, none, none, "b"⟩
      ⟨some "t", some 5⟩ 0 .transportFailure .transportFailure
      (by decide)).2.2.2.2.2.1 (by decide) (by decide) (by decide) (by decide)
      (by decide)
  · exact (c2_classification ⟨some "t", some 5⟩ ⟨500, false, none, "", false⟩
      ⟨"c", "s", "i", "client_credentials", none, none, none, "b"⟩
      ⟨some "t", some 5⟩ 0 .transportFailure .transportFailure
      (by decide)).2.2.2.2.2.2.1 (by decide)

/-- Case analysis of `get_auth_headers` when the first refresh response (if
used) would yield a positive `expires_in`: either no refresh was needed
(zero POSTs), or the single refresh failed and the error propagated, or the
single refresh succeeded and was not repeated. -/
theorem gah_cases (cfg : NGConfig) (st : TokenState) (now : Int)
    (r1 r2 : TokenResponse) (h1 : posExpiresIn r1 = true) :
    (should_refresh_token st now = false ∧
      get_auth_headers cfg st now r1 r2 =
        ⟨false, ("Authorization", "Bearer " ++ pyShow st.access_token) ::
          sessionHeaders cfg, st, 0⟩) ∨
    (should_refresh_token st now = true ∧ (refresh_token st now r1).1 = false ∧
      get_auth_headers cfg st now r1 r2 =
        ⟨true, [], (refresh_token st now r1).2, 1⟩) ∨
    (should_refresh_token st now = true ∧ (refresh_token st now r1).1 = true ∧
      get_auth_headers cfg st now r1 r2 =
        ⟨false, ("Authorization",
            "Bearer " ++ pyShow (refresh_token st now r1).2.access_token) ::
          sessionHeaders cfg, (refresh_token st now r1).2, 1⟩) := by
  cases hs : should_refresh_token st now with
  | false =>
    obtain ⟨tok, e, ha, hne, hexp, hlt⟩ := not_should_refresh st now hs
    have hp1 : access_token_read st now r1 = ⟨false, st, st.access_token, 0⟩ := by
      simp [access_token_read, hs]
    have hp2 : access_token_read st now r2 = ⟨false, st, st.access_token, 0⟩ := by
      simp [access_token_read, hs]
    have htr : truthyOpt st.access_token = true := by
      rw [ha]; simp [truthyOpt, hne]
    left
    exact ⟨rfl, by simp [get_auth_headers, hp1, hp2, htr]⟩
  | true =>
    rcases hr : refresh_token st now r1 with ⟨b, st1⟩
    cases b with
    | false =>
      have hp1 : access_token_read st now r1 = ⟨true, st1, none, 1⟩ := by
        simp [access_token_read, hs, hr]
      right; left
      exact ⟨rfl, by simp [hr], by simp [get_auth_headers, hp1, hr]⟩
    | true =>
      obtain ⟨b', hresp, htrb, hst⟩ := refresh_ok st now r1 (by simp [hr])
      rw [hr] at hst
      dsimp only at hst
      subst hst
      cases hba : b'.access_token with
      | none => rw [hba] at htrb; simp [truthyOpt] at htrb
      | some tok =>
        have hne : tok ≠ "" := by
          rw [hba] at htrb; simpa [truthyOpt] using htrb
        have hpos : 0 < b'.expires_in.getD 3600 := by
          rw [hresp] at h1; simpa [posExpiresIn] using h1
        rw [hba] at hr
        have hs1 : should_refresh_token
            ⟨some tok, some (now + b'.expires_in.getD 3600)⟩ now = false :=
          should_refresh_valid tok _ now hne (by omega)
        have hp1 : access_token_read st now r1 =
            ⟨false, ⟨some tok, some (now + b'.expires_in.getD 3600)⟩,
              some tok, 1⟩ := by
          simp [access_token_read, hs, hr]
        have hp2 : access_token_read
            ⟨some tok, some (now + b'.expires_in.getD 3600)⟩ now r2 =
            ⟨false, ⟨some tok, some (now + b'.expires_in.getD 3600)⟩,
              some tok, 0⟩ := by
          simp [access_token_read, hs1]
        right; right
        refine ⟨rfl, by simp [hr], ?_⟩
        simp [get_auth_headers, hp1, hp2, truthyOpt, hne, hr]

/-- C4 counterexample: with a refresh response carrying `expires_in = 0`,
`get_auth_headers` returns successfully (performing two refreshes) with a
token whose expiry equals the current time — not strictly in the future as
claimed. -/
theorem c4_counterexample :
    get_auth_headers ⟨"c", "s", "i", "client_credentials", none, none, none, "b"⟩
        ⟨none, none⟩ 100
        (.response 200 (some ⟨some "tok", some 0⟩))
        (.response 200 (some ⟨some "tok", some 0⟩)) =
      ⟨false, [("Authorization", "Bearer tok")], ⟨some "tok", some 100⟩, 2⟩ ∧
    ¬((100 : Int) < 100) :=
  ⟨rfl, by omega⟩

/-- C4 amended: provided a successful refresh response carries a positive
`expires_in` (the claim fails at `expires_in = 0`, see the counterexample),
`get_auth_headers` either raises `AuthenticationError` or returns
`Authorization: Bearer <token>` plus the configured `x-ng-sessionid`
header, with a non-empty cached token whose expiry is strictly in the
future; at least one refresh is performed exactly when the cached token is
absent or empty, or its expiry is absent or at/before the current time
(the code's `_should_refresh_token`). -/
theorem c4_headers_valid (cfg : NGConfig) (st : TokenState) (now : Int)
    (r1 r2 : TokenResponse) (h1 : posExpiresIn r1 = true) :
    ((get_auth_headers cfg st now r1 r2).raised = false →
      ∃ tok e, tok ≠ "" ∧
        (get_auth_headers cfg st now r1 r2).headers =
          ("Authorization", "Bearer " ++ tok) :: sessionHeaders cfg ∧
        (get_auth_headers cfg st now r1 r2).st.access_token = some tok ∧
        (get_auth_headers cfg st now r1 r2).st.token_expiration = some e ∧
        now < e) ∧
    (1 ≤ (get_auth_headers cfg st now r1 r2).posts ↔
      should_refresh_token st now = true) := by
  rcases gah_cases cfg st now r1 r2 h1 with ⟨hs, hg⟩ | ⟨hs, hf, hg⟩ | ⟨hs, hf, hg⟩
  · obtain ⟨tok, e, ha, hne, hexp, hlt⟩ := not_should_refresh st now hs
    constructor
    · intro _
      exact ⟨tok, e, hne, by rw [hg, ha]; rfl, by rw [hg]; exact ha,
        by rw [hg]; exact hexp, hlt⟩
    · rw [hg, hs]; simp
  · constructor
    · intro hraised
      rw [hg] at hraised
      simp at hraised
    · rw [hg, hs]; simp
  · obtain ⟨b', hresp, htrb, hst⟩ := refresh_ok st now r1 hf
    cases hba : b'.access_token with
    | none => rw [hba] at htrb; simp [truthyOpt] at htrb
    | some tok =>
      have hne : tok ≠ "" := by rw [hba] at htrb; simpa [truthyOpt] using htrb
      have hpos : 0 < b'.expires_in.getD 3600 := by
        rw [hresp] at h1; simpa [posExpiresIn] using h1
      have hst1 : (refresh_token st now r1).2 =
          ⟨some tok, some (now + b'.expires_in.getD 3600)⟩ := by rw [hst, hba]
      constructor
      · intro _
        refine ⟨tok, now + b'.expires_in.getD 3600, hne, ?_, ?_, ?_, by omega⟩
        · rw [hg, hst1]; rfl
        · rw [hg, hst1]
        · rw [hg, hst1]
      · rw [hg, hs]; simp

/-- Witness for the amended C4: a fresh client, one successful refresh with
`expires_in = 10` at time 100. -/
theorem c4_headers_valid_witness :
    ((get_auth_headers
        ⟨"c", "s", "i", "client_credentials", none, none, none, "b"⟩
        ⟨none, none⟩ 100 (.response 200 (some ⟨some "tok", some 10⟩))
        (.response 200 (some ⟨some "tok", some 10⟩))).raised = false →
      ∃ tok e, tok ≠ "" ∧
        (get_auth_headers
          ⟨"c", "s", "i", "client_credentials", none, none, none, "b"⟩
          ⟨none, none⟩ 100 (.response 200 (some ⟨some "tok", some 10⟩))
          (.response 200 (some ⟨some "tok", some 10⟩))).headers =
            ("Authorization", "Bearer " ++ tok) ::
              sessionHeaders
                ⟨"c", "s", "i", "client_credentials", none, none, none, "b"⟩ ∧
        (get_auth_headers
          ⟨"c", "s", "i", "client_credentials", none, none, none, "b"⟩
          ⟨none, none⟩ 100 (.response 200 (some ⟨some "tok", some 10⟩))
          (.response 200 (some ⟨some "tok", some 10⟩))).st.access_token =
            some tok ∧
        (get_auth_headers
          ⟨"c", "s", "i", "client_credentials", none, none, none, "b"⟩
          ⟨none, none⟩ 100 (.response 200 (some ⟨some "tok", some 10⟩))
          (.response 200 (some ⟨some "tok", some 10⟩))).st.token_expiration =
            some e ∧ (100 : Int) < e) ∧
    (1 ≤ (get_auth_headers
        ⟨"c", "s", "i", "client_credentials", none, none, none, "b"⟩
        ⟨none, none⟩ 100 (.response 200 (some ⟨some "tok", some 10⟩))
        (.response 200 (some ⟨some "tok", some 10⟩))).posts ↔
      should_refresh_token ⟨none, none⟩ 100 = true) :=
  c4_headers_valid ⟨"c", "s", "i", "client_credentials", none, none, none, "b"⟩
    ⟨none, none⟩ 100 (.response 200 (some ⟨some "tok", some 10⟩))
    (.response 200 (some ⟨some "tok", some 10⟩)) (by decide)

/-- C9 counterexample: a single `get_auth_headers` call performs TWO POSTs
to the token endpoint when the refresh response carries `expires_in = 0`
(the property is read twice and the freshly stored token is already
expired at the second read). -/
theorem c9_counterexample :
    (get_auth_headers ⟨"c", "s", "i", "client_credentials", none, none, none, "b"⟩
        ⟨none, none⟩ 100
        (.response 200 (some ⟨some "tok", some 0⟩))
        (.response 200 (some ⟨some "tok", some 0⟩))).posts = 2 ∧
    ¬((get_auth_headers ⟨"c", "s", "i", "client_credentials", none, none, none, "b"⟩
        ⟨none, none⟩ 100
        (.response 200 (some ⟨some "tok", some 0⟩))
        (.response 200 (some ⟨some "tok", some 0⟩))).posts ≤ 1) :=
  ⟨rfl, by decide⟩

/-- C9 amended: one `get_auth_headers` call performs at most two refresh
POSTs (at most one per read of the `access_token` property, which the source
reads twice), and at most one whenever a successful first refresh would
carry a positive `expires_in`; there is no backoff and the dispatcher issues
the data request at most once — never re-issuing it (in particular not
after a 401). -/
theorem c9_no_retry (cfg : NGConfig) (st : TokenState) (now : Int)
    (r1 r2 : TokenResponse) (t : TransportOutcome) :
    (get_auth_headers cfg st now r1 r2).posts ≤ 2 ∧
    (posExpiresIn r1 = true → (get_auth_headers cfg st now r1 r2).posts ≤ 1) ∧
    (make_request cfg st now r1 r2 t).dataRequests ≤ 1 := by
  have hle : ∀ (s : TokenState) (r : TokenResponse),
      (access_token_read s now r).posts ≤ 1 := by
    intro s r
    unfold access_token_read
    split
    · rcases h : refresh_token s now r with ⟨b, st1⟩
      cases b <;> simp
    · simp
  refine ⟨?_, ?_, ?_⟩
  · have h1 := hle st r1
    have h2 := hle (access_token_read st now r1).st r2
    unfold get_auth_headers
    dsimp only
    split_ifs <;> simp <;> omega
  · intro hpos
    rcases gah_cases cfg st now r1 r2 hpos with ⟨_, hg⟩ | ⟨_, _, hg⟩ | ⟨_, _, hg⟩ <;>
      simp [hg]
  · unfold make_request
    dsimp only
    split_ifs
    · simp
    · cases t <;> simp

/-- Witness for the amended C9 at concrete inputs. -/
theorem c9_no_retry_witness :
    (get_auth_headers ⟨"c", "s", "i", "client_credentials", none, none, none, "b"⟩
        ⟨none, none⟩ 0 .transportFailure .transportFailure).posts ≤ 2 ∧
    (posExpiresIn .transportFailure = true →
      (get_auth_headers ⟨"c", "s", "i", "client_credentials", none, none, none, "b"⟩
        ⟨none, none⟩ 0 .transportFailure .transportFailure).posts ≤ 1) ∧
    (make_request ⟨"c", "s", "i", "client_credentials", none, none, none, "b"⟩
        ⟨none, none⟩ 0 .transportFailure .transportFailure .timeout).dataRequests ≤ 1 :=
  c9_no_retry ⟨"c", "s", "i", "client_credentials", none, none, none, "b"⟩
    ⟨none, none⟩ 0 .transportFailure .transportFailure .timeout

/-! ## Helper lemmas on splitting and joining paths -/

theorem splitChar_ne_nil (c : Char) (l : List Char) : splitChar c l ≠ [] := by
  induction l with
  | nil => simp [splitChar]
  | cons a rest ih =>
    unfold splitChar
    split
    · simp
    · cases h : splitChar c rest <;> simp

theorem splitChar_cons_sep (c : Char) (l : List Char) :
    splitChar c (c :: l) = [] :: splitChar c l := by
  simp [splitChar]

theorem splitChar_cons_nosep (c a : Char) (l : List Char) (ha : a ≠ c) :
    splitChar c (a :: l) = (splitChar c l).modifyHead (a :: ·) := by
  simp only [splitChar]
  rw [if_neg ha]
  cases h : splitChar c l with
  | nil => exact absurd h (splitChar_ne_nil c l)
  | cons t ts => rfl

theorem splitChar_append (c : Char) (s l : List Char) (h : c ∉ s) :
    splitChar c (s ++ l) = (splitChar c l).modifyHead (s ++ ·) := by
  induction s with
  | nil =>
    cases hl : splitChar c l <;> simp [hl]
  | cons a s' ih =>
    have ha : a ≠ c := fun he => h (he ▸ List.mem_cons_self a s')
    have h' : c ∉ s' := fun hm => h (List.mem_cons_of_mem a hm)
    rw [List.cons_append, splitChar_cons_nosep c a _ ha, ih h']
    cases hl : splitChar c l with
    | nil => exact absurd hl (splitChar_ne_nil c l)
    | cons t ts => simp

theorem splitChar_no_sep (c : Char) (s : List Char) (h : c ∉ s) :
    splitChar c s = [s] := by
  have := splitChar_append c s [] h
  simpa [splitChar] using this

theorem splitChar_slashes (n : Nat) :
    splitChar '/' (slashes n) = List.replicate (n + 1) [] := by
  induction n with
  | zero => simp [slashes, splitChar, List.replicate]
  | succ k ih =>
    show splitChar '/' ('/' :: slashes k) = _
    rw [splitChar_cons_sep, ih]
    rfl

theorem joinChar_cons (c : Char) (s : List Char) (rest : List (List Char))
    (h : rest ≠ []) : joinChar c (s :: rest) = s ++ c :: joinChar c rest := by
  cases rest with
  | nil => exact absurd rfl h
  | cons t ts => rfl

theorem joinChar_ne_nil_of_head (c : Char) (s : List Char)
    (rest : List (List Char)) (h : s ≠ []) : joinChar c (s :: rest) ≠ [] := by
  cases rest with
  | nil => simpa [joinChar]
  | cons t ts => simp [joinChar_cons c s (t :: ts) (by simp), h]

theorem splitChar_joinChar (c : Char) (segs : List (List Char))
    (hne : segs ≠ []) (h : ∀ s ∈ segs, c ∉ s) :
    splitChar c (joinChar c segs) = segs := by
  induction segs with
  | nil => exact absurd rfl hne
  | cons s rest ih =>
    cases rest with
    | nil =>
      simp [joinChar, splitChar_no_sep c s (h s (by simp))]
    | cons t ts =>
      rw [joinChar_cons c s (t :: ts) (by simp),
        splitChar_append c s _ (h s (by simp)), splitChar_cons_sep,
        ih (by simp) (fun x hx => h x (List.mem_cons_of_mem s hx))]
      simp

theorem splitChar_basePath_slashes (psegs : List (List Char)) (k : Nat)
    (hp : ∀ s ∈ psegs, '/' ∉ s) :
    splitChar '/' (basePath psegs ++ slashes (k + 1)) =
      [] :: (psegs ++ List.replicate (k + 1) []) := by
  induction psegs with
  | nil =>
    simp [basePath, splitChar_slashes, List.replicate]
  | cons p ps ih =>
    have hbp : basePath (p :: ps) = '/' :: (p ++ basePath ps) := by
      simp [basePath]
    rw [hbp, List.cons_append, List.append_assoc, splitChar_cons_sep,
      splitChar_append '/' p _ (hp p (by simp)),
      ih (fun x hx => hp x (List.mem_cons_of_mem p hx))]
    simp

theorem keepLast_cons (s : List Char) (rest : List (List Char))
    (h : rest ≠ []) :
    keepLast (s :: rest) = if s = [] then keepLast rest else s :: keepLast rest := by
  cases rest with
  | nil => exact absurd rfl h
  | cons t ts => rfl

theorem keepLast_append (xs ys : List (List Char)) (hys : ys ≠ []) :
    keepLast (xs ++ ys) = xs.filter (· ≠ []) ++ keepLast ys := by
  induction xs with
  | nil => simp
  | cons x xs' ih =>
    have hne : xs' ++ ys ≠ [] := by simp [hys]
    rw [List.cons_append, keepLast_cons x (xs' ++ ys) hne, ih]
    by_cases hx : x = [] <;> simp [hx]

theorem keepLast_all_ne (l : List (List Char)) (h : ∀ s ∈ l, s ≠ []) :
    keepLast l = l := by
  induction l with
  | nil => rfl
  | cons s rest ih =>
    cases rest with
    | nil => rfl
    | cons t ts =>
      rw [keepLast_cons s (t :: ts) (by simp), if_neg (h s (by simp)),
        ih (fun x hx => h x (List.mem_cons_of_mem s hx))]

theorem keepEnds_cons (s : List Char) (rest : List (List Char))
    (h : rest ≠ []) : keepEnds (s :: rest) = s :: keepLast rest := by
  cases rest with
  | nil => exact absurd rfl h
  | cons t ts => rfl

theorem slash_joinChar_append (psegs esegs : List (List Char))
    (he : esegs ≠ []) :
    '/' :: joinChar '/' (psegs ++ esegs) =
      basePath psegs ++ '/' :: joinChar '/' esegs := by
  induction psegs with
  | nil => simp [basePath]
  | cons p ps ih =>
    have hne : ps ++ esegs ≠ [] := by simp [he]
    rw [List.cons_append, joinChar_cons '/' p (ps ++ esegs) hne]
    have hbp : basePath (p :: ps) = '/' :: (p ++ basePath ps) := by
      simp [basePath]
    rw [hbp]
    simp only [List.cons_append, List.append_assoc]
    rw [← ih]

theorem takeWhile_append_all {α : Type} {p : α → Bool} (l1 l2 : List α)
    (h1 : ∀ a ∈ l1, p a = true) (h2 : ∀ a, l2.head? = some a → p a = false) :
    (l1 ++ l2).takeWhile p = l1 ∧ (l1 ++ l2).dropWhile p = l2 := by
  induction l1 with
  | nil =>
    cases l2 with
    | nil => exact ⟨rfl, rfl⟩
    | cons a t =>
      simp [List.takeWhile_cons, List.dropWhile_cons, h2 a rfl]
  | cons a t ih =>
    have hpa : p a = true := h1 a (by simp)
    have iht := ih (fun x hx => h1 x (List.mem_cons_of_mem a hx))
    simp [List.takeWhile_cons, List.dropWhile_cons, hpa, iht.1, iht.2]

theorem basePath_slashes_head (psegs : List (List Char)) (m : Nat) :
    (basePath psegs ++ slashes (m + 1)).head? = some '/' := by
  cases psegs with
  | nil => simp [basePath, slashes, List.replicate_succ]
  | cons p ps => simp [basePath]

theorem joinChar_head (c a : Char) (s' : List Char) (rest : List (List Char)) :
    (joinChar c ((a :: s') :: rest)).head? = some a := by
  cases rest with
  | nil => rfl
  | cons t ts => rw [joinChar_cons c _ _ (by simp)]; rfl

theorem getLast_replicate_append (l : List (List Char)) (k : Nat) :
    (l ++ List.replicate (k + 1) ([] : List Char)).getLast? = some [] := by
  rw [List.replicate_succ', ← List.append_assoc]
  exact List.getLast?_concat _

theorem filter_replicate_nil (k : Nat) :
    (List.replicate k ([] : List Char)).filter (· ≠ []) = [] := by
  induction k with
  | zero => rfl
  | succ j ih => simp [List.replicate_succ, ih]

/-- The heart of C7: on a well-formed `https` base (netloc without slashes,
path of non-empty slash-free segments, any number `m+1` of trailing slashes)
and a relative endpoint of non-empty slash-free segments, the modelled
`urljoin` joins base and endpoint with exactly one slash, collapsing the
trailing slash run. -/
theorem urljoin_model_join (netloc : List Char) (psegs esegs : List (List Char))
    (m : Nat) (hnet : '/' ∉ netloc)
    (hp : ∀ s ∈ psegs, s ≠ [] ∧ '/' ∉ s)
    (he : ∀ s ∈ esegs, s ≠ [] ∧ '/' ∉ s)
    (hene : esegs ≠ []) :
    urljoin_model ("https://".toList ++ (netloc ++ (basePath psegs ++ slashes (m + 1))))
        (joinChar '/' esegs) =
      "https://".toList ++ netloc ++ basePath psegs ++ '/' :: joinChar '/' esegs := by
  obtain ⟨s1, rest, rfl⟩ : ∃ s1 rest, esegs = s1 :: rest := by
    cases esegs with
    | nil => exact absurd rfl hene
    | cons s1 rest => exact ⟨s1, rest, rfl⟩
  obtain ⟨a, s1', rfl⟩ : ∃ a s1', s1 = a :: s1' := by
    cases hs1 : s1 with
    | nil => exact absurd hs1 (he s1 (by simp)).1
    | cons a s1' => exact ⟨a, s1', rfl⟩
  have hrelne : joinChar '/' ((a :: s1') :: rest) ≠ [] :=
    joinChar_ne_nil_of_head '/' _ rest (by simp)
  have hahead : (joinChar '/' ((a :: s1') :: rest)).head? = some a :=
    joinChar_head '/' a s1' rest
  have hane : a ≠ '/' := by
    intro hcontra
    exact absurd (hcontra ▸ List.mem_cons_self a s1')
      (he (a :: s1') (by simp)).2
  have h1 : ∀ X : List Char,
      ("https://".toList ++ X).takeWhile (· ≠ ':') = "https".toList :=
    fun X => rfl
  have h2 : ∀ X : List Char,
      (("https://".toList ++ X).dropWhile (· ≠ ':')).drop 3 = X :=
    fun X => rfl
  have h34 := takeWhile_append_all (p := fun c => decide (c ≠ '/')) netloc
    (basePath psegs ++ slashes (m + 1))
    (fun c hc => by
      have hcne : c ≠ '/' := fun hcc => hnet (hcc ▸ hc)
      simp [hcne])
    (fun c hc => by
      rw [basePath_slashes_head psegs m] at hc
      have hc' : c = '/' := by injection hc with hh; exact hh.symm
      subst hc'
      decide)
  have hsplitb := splitChar_basePath_slashes psegs m (fun s hs => (hp s hs).2)
  have hlast : (([] : List Char) ::
      (psegs ++ List.replicate (m + 1) ([] : List Char))).getLast? = some [] := by
    have := getLast_replicate_append (([] : List Char) :: psegs) m
    simpa using this
  have hsplite : splitChar '/' (joinChar '/' ((a :: s1') :: rest)) =
      (a :: s1') :: rest :=
    splitChar_joinChar '/' _ (by simp) (fun s hs => (he s hs).2)
  have hnothead : ¬(joinChar '/' ((a :: s1') :: rest)).head? = some '/' := by
    rw [hahead]
    simp [hane]
  unfold urljoin_model
  rw [if_neg hrelne]
  simp only [h1, h2, h34.1, h34.2, hsplitb, hsplite]
  rw [if_neg hnothead, if_pos hlast]
  have hsegs : (([] : List Char) :: (psegs ++ List.replicate (m + 1) [])) ++
      ((a :: s1') :: rest) =
      ([] : List Char) :: (psegs ++ (List.replicate (m + 1) [] ++
        ((a :: s1') :: rest))) := by simp
  rw [hsegs, keepEnds_cons _ _ (by simp),
    keepLast_append psegs _ (by simp),
    keepLast_append (List.replicate (m + 1) []) _ (by simp),
    filter_replicate_nil,
    keepLast_all_ne _ (fun s hs => (he s hs).1),
    List.filter_eq_self.mpr (fun s hs => by simp [(hp s hs).1]),
    List.nil_append,
    joinChar_cons '/' [] (psegs ++ (a :: s1') :: rest) (by simp),
    List.nil_append,
    slash_joinChar_append psegs ((a :: s1') :: rest) (by simp)]
  rw [if_neg (by
    cases hbp : basePath psegs with
    | nil => simp [hbp]
    | cons x xs => simp [hbp])]
  have hhttp : "https://".toList = "https".toList ++ [':', '/', '/'] := rfl
  rw [hhttp]
  simp [List.append_assoc]

theorem dropWhile_slashes_append (n : Nat) (l : List Char) :
    (slashes n ++ l).dropWhile (· = '/') = l.dropWhile (· = '/') := by
  induction n with
  | zero => rfl
  | succ k ih =>
    show (('/' :: slashes k) ++ l).dropWhile (· = '/') = _
    rw [List.cons_append, List.dropWhile_cons]
    simpa using ih

theorem dropWhile_of_head_ne (l : List Char) (a : Char) (h : l.head? = some a)
    (ha : a ≠ '/') : l.dropWhile (· = '/') = l := by
  cases l with
  | nil => rfl
  | cons x xs =>
    have hx : x = a := by injection h
    subst hx
    simp [List.dropWhile_cons, ha]

/-- C7: `_build_url` joins the base URL and the endpoint path with exactly
one separating slash, regardless of the number of trailing slashes on the
base (`m`) and of leading slashes on the endpoint (`n`).  Domain, on which
the model is exact for CPython's `urljoin` (outside it `urljoin` performs
dot-segment resolution, scheme detection on the relative part, or
query/fragment/params splitting, none of which the model reproduces): an
`https://netloc/...` base and a relative endpoint whose netloc and path
segments consist of printable ASCII without `/ : ? # [ ] ;` (`urlSegChar`),
with every segment non-empty and different from `.` and `..`. -/
theorem c7_build_url (netloc : List Char) (psegs esegs : List (List Char))
    (m n : Nat) (hnet : ∀ c ∈ netloc, urlSegChar c = true)
    (hp : ∀ s ∈ psegs, s ≠ [] ∧ s ≠ ['.'] ∧ s ≠ ['.', '.'] ∧
      ∀ c ∈ s, urlSegChar c = true)
    (he : ∀ s ∈ esegs, s ≠ [] ∧ s ≠ ['.'] ∧ s ≠ ['.', '.'] ∧
      ∀ c ∈ s, urlSegChar c = true)
    (hene : esegs ≠ []) :
    build_url ⟨"https://".toList ++ netloc ++ basePath psegs ++ slashes m⟩
        ⟨slashes n ++ joinChar '/' esegs⟩ =
      ⟨"https://".toList ++ netloc ++ basePath psegs ++
        '/' :: joinChar '/' esegs⟩ := by
  have hnet' : '/' ∉ netloc := fun hmem => absurd (hnet '/' hmem) (by decide)
  have hp' : ∀ s ∈ psegs, s ≠ [] ∧ '/' ∉ s := fun s hs =>
    ⟨(hp s hs).1, fun hmem => absurd ((hp s hs).2.2.2 '/' hmem) (by decide)⟩
  have he' : ∀ s ∈ esegs, s ≠ [] ∧ '/' ∉ s := fun s hs =>
    ⟨(he s hs).1, fun hmem => absurd ((he s hs).2.2.2 '/' hmem) (by decide)⟩
  obtain ⟨s1, rest, rfl⟩ : ∃ s1 r, esegs = s1 :: r := by
    cases esegs with
    | nil => exact absurd rfl hene
    | cons s1 r => exact ⟨s1, r, rfl⟩
  obtain ⟨a, s1', rfl⟩ : ∃ a s1', s1 = a :: s1' := by
    cases hs1 : s1 with
    | nil => exact absurd hs1 (he' s1 (by simp)).1
    | cons a s1' => exact ⟨a, s1', rfl⟩
  have hane : a ≠ '/' := by
    intro hcontra
    exact absurd (hcontra ▸ List.mem_cons_self a s1')
      (he' (a :: s1') (by simp)).2
  have hhead := joinChar_head '/' a s1' rest
  have hep : (slashes n ++ joinChar '/' ((a :: s1') :: rest)).dropWhile
      (· = '/') = joinChar '/' ((a :: s1') :: rest) := by
    rw [dropWhile_slashes_append]
    exact dropWhile_of_head_ne _ a hhead hane
  have hsl : slashes m ++ ['/'] = slashes (m + 1) := by
    simp [slashes, List.replicate_succ']
  have hb : ("https://".toList ++ netloc ++ basePath psegs ++ slashes m) ++
      ['/'] = "https://".toList ++ (netloc ++ (basePath psegs ++
        slashes (m + 1))) := by
    simp only [List.append_assoc, hsl]
  show String.mk (urljoin_model
      (("https://".toList ++ netloc ++ basePath psegs ++ slashes m) ++ ['/'])
      ((slashes n ++ joinChar '/' ((a :: s1') :: rest)).dropWhile (· = '/'))) = _
  rw [hep, hb,
    urljoin_model_join netloc psegs ((a :: s1') :: rest) m hnet' hp' he' (by simp)]

/-- Witness for C7: the spec's concrete instance — base `https://x/api` with
endpoints `/master/codes` (one leading slash) and `master/codes` (none) both
resolve to `https://x/api/master/codes`. -/
theorem c7_build_url_witness :
    build_url ⟨"https://".toList ++ ['x'] ++ basePath [['a', 'p', 'i']] ++
        slashes 0⟩
      ⟨slashes 1 ++ joinChar '/'
        [['m', 'a', 's', 't', 'e', 'r'], ['c', 'o', 'd', 'e', 's']]⟩ =
      ⟨"https://".toList ++ ['x'] ++ basePath [['a', 'p', 'i']] ++
        '/' :: joinChar '/'
          [['m', 'a', 's', 't', 'e', 'r'], ['c', 'o', 'd', 'e', 's']]⟩ ∧
    build_url "https://x/api" "/master/codes" = "https://x/api/master/codes" ∧
    build_url "https://x/api" "master/codes" = "https://x/api/master/codes" :=
  ⟨c7_build_url ['x'] [['a', 'p', 'i']]
      [['m', 'a', 's', 't', 'e', 'r'], ['c', 'o', 'd', 'e', 's']] 0 1
      (by decide) (by decide) (by decide) (by decide),
    by decide, by decide⟩

end NextGen
